import Mathlib

/-!
Shallow embedding of the flow-cli account-key abstraction.

Sources:
  * `src/unnamed/part_000` — package `flowkit`: the `AccountKey` interface,
    the four concrete variants (hex / file / bip44 / kms), the key factory
    `accountKeyFromConfig`, and the per-variant `ToConfig`, `Validate`,
    `PrivateKey` and `Signer` methods.
  * `src/pkg/flowcli/project/account.go` — package `project`: the `Account`
    aggregate, `DefaultKey`, `accountsFromConfig`, `AccountFromConfig`.

External collaborators (the `config` package's `AccountKey` record and
`KeyType` constants, the `crypto`, `bip39`, `slip10` and go-ethereum
libraries, the filesystem) are not under `src/`; their record shapes are
pinned by how the code in `src/` reads and writes their fields, and the
library calls are embedded as an explicit `Externals` record of oracles,
so that every repository-owned control path is represented faithfully.

Go conventions used in the embedding:
  * fallible calls `(T, error)` become `Except String T`;
  * a nil-able `crypto.PrivateKey` interface value becomes
    `Option PrivKeyBytes`;
  * methods that mutate their receiver (the lazy caches of the file and
    bip44 keys) return the updated receiver alongside their result;
  * Go composite literals zero the fields they do not mention, so every
    `ConfigAccountKey` literal below spells out all nine fields.
-/

namespace Flowkit

/-- Raw private key bytes, the payload of Go's `crypto.PrivateKey`. -/
abbrev PrivKeyBytes := List Nat

/-- `crypto.SignatureAlgorithm`: closed enumeration with an unknown sentinel. -/
inductive SignatureAlgorithm where
  | UnknownSignatureAlgorithm
  | ECDSA_P256
  | ECDSA_secp256k1
deriving DecidableEq, Repr

/-- `crypto.HashAlgorithm`: closed enumeration with an unknown sentinel. -/
inductive HashAlgorithm where
  | UnknownHashAlgorithm
  | SHA2_256
  | SHA3_256
deriving DecidableEq, Repr

/-- Modelled from the spec: the `config` package (not under `src/`) declares
the key-variant tag as a string-typed constant per variant; the factory in
`src/unnamed/part_000` switches on these four distinct constants. -/
def KeyTypeHex : String := "hex"

/-- Modelled from the spec: the Derived (bip44) variant tag constant. -/
def KeyTypeBip44 : String := "bip44"

/-- Modelled from the spec: the KMS variant tag constant. -/
def KeyTypeGoogleKMS : String := "google-kms"

/-- Modelled from the spec: the File variant tag constant. -/
def KeyTypeFile : String := "file"

/-- `config.AccountKey` (external flat record, §3/§6 of the spec): variant
tag, index, algorithms, and the variant-specific optional fields.  Exactly
the fields the code in `src/` reads and writes. -/
structure ConfigAccountKey where
  type : String
  index : Int
  sigAlgo : SignatureAlgorithm
  hashAlgo : HashAlgorithm
  privateKey : Option PrivKeyBytes
  resourceID : String
  location : String
  mnemonic : String
  derivationPath : String
deriving DecidableEq, Repr

/-- `baseAccountKey` (part_000 lines 74-79): the struct embedded by every
variant, holding tag, index and the two algorithm fields. -/
structure BaseAccountKey where
  keyType : String
  index : Int
  sigAlgo : SignatureAlgorithm
  hashAlgo : HashAlgorithm
deriving DecidableEq, Repr

/-- `baseKeyFromConfig` (part_000 lines 81-88). -/
def baseKeyFromConfig (accountKeyConf : ConfigAccountKey) : BaseAccountKey :=
  { keyType := accountKeyConf.type
    index := accountKeyConf.index
    sigAlgo := accountKeyConf.sigAlgo
    hashAlgo := accountKeyConf.hashAlgo }

/-- `baseAccountKey.SigAlgo` (part_000 lines 94-99): default the unknown
sentinel to ECDSA P-256, otherwise return the stored field unchanged. -/
def BaseAccountKey.SigAlgo (a : BaseAccountKey) : SignatureAlgorithm :=
  if a.sigAlgo = SignatureAlgorithm.UnknownSignatureAlgorithm then
    SignatureAlgorithm.ECDSA_P256
  else
    a.sigAlgo

/-- `baseAccountKey.HashAlgo` (part_000 lines 101-106): default the unknown
sentinel to SHA3-256, otherwise return the stored field unchanged. -/
def BaseAccountKey.HashAlgo (a : BaseAccountKey) : HashAlgorithm :=
  if a.hashAlgo = HashAlgorithm.UnknownHashAlgorithm then
    HashAlgorithm.SHA3_256
  else
    a.hashAlgo

/-- `baseAccountKey.Index` (part_000 lines 108-110). -/
def BaseAccountKey.Index (a : BaseAccountKey) : Int :=
  a.index

/-- `baseAccountKey.Validate` (part_000 lines 112-114): always returns nil. -/
def BaseAccountKey.Validate (_ : BaseAccountKey) : Except String Unit :=
  Except.ok ()

/-- `cloudkms.Key`: the structured remote-key handle; the code in `src/`
only ever reads back its resource identifier. -/
structure CloudKmsKey where
  resourceID : String
deriving DecidableEq, Repr

/-- A SLIP-10 extended key as used by part_000: the code only reads the
`Key` field (raw child key bytes) of the library's key object. -/
structure Slip10Key where
  key : List Nat
deriving DecidableEq, Repr

/-- The two hierarchical-derivation curves part_000 selects between
(`slip10.CurveBitcoin` and `slip10.CurveP256`, lines 404-407). -/
inductive Curve where
  | CurveBitcoin
  | CurveP256
deriving DecidableEq, Repr

/-- The external library and OS calls made by the code in `src/`, embedded
as oracles: `os.ReadFile`, `crypto.DecodePrivateKeyHex`,
`bip39.IsMnemonicValid`, `goeth.ParseDerivationPath`, `bip39.NewSeed`,
`slip10.NewMasterKeyWithCurve`, `NewChildKey`, `crypto.DecodePrivateKey`,
and `cloudkms.KeyFromResourceID`.  Theorems quantify over this record, so
they hold for every behaviour of the external world. -/
structure Externals where
  readFile : String → Except String String
  decodePrivateKeyHex : SignatureAlgorithm → String → Except String PrivKeyBytes
  isMnemonicValid : String → Bool
  parseDerivationPath : String → Except String (List Nat)
  newSeed : String → String → List Nat
  newMasterKeyWithCurve : List Nat → Curve → Except String Slip10Key
  newChildKey : Slip10Key → Nat → Except String Slip10Key
  decodePrivateKey : SignatureAlgorithm → List Nat → Except String PrivKeyBytes
  keyFromResourceID : String → Except String CloudKmsKey

/-- The `strings.TrimPrefix(s, "0x")` call at part_000 line 322: drop a
leading `0x` marker if present, by structural match on the characters. -/
def trimLeading0x (s : String) : String :=
  match s.data with
  | '0' :: 'x' :: rest => String.mk rest
  | _ => s

/-- `HexAccountKey` (part_000 lines 213-217). -/
structure HexAccountKey where
  base : BaseAccountKey
  privateKey : Option PrivKeyBytes
deriving DecidableEq, Repr

/-- `hexKeyFromConfig` (part_000 lines 235-240): copies the base fields and
the inline private key from the record; never fails. -/
def hexKeyFromConfig (accountKey : ConfigAccountKey) : Except String HexAccountKey :=
  Except.ok
    { base := baseKeyFromConfig accountKey
      privateKey := accountKey.privateKey }

/-- `HexAccountKey.ToConfig` (part_000 lines 250-258): emits tag, index,
algorithms and the inline private key; the other fields take Go zero
values. -/
def HexAccountKey.ToConfig (a : HexAccountKey) : ConfigAccountKey :=
  { type := a.base.keyType
    index := a.base.index
    sigAlgo := a.base.sigAlgo
    hashAlgo := a.base.hashAlgo
    privateKey := a.privateKey
    resourceID := ""
    location := ""
    mnemonic := ""
    derivationPath := "" }

/-- `FileAccountKey` (part_000 lines 301-305): base fields, a lazily-filled
private key cache (nil until first load), and the file location. -/
structure FileAccountKey where
  base : BaseAccountKey
  privateKey : Option PrivKeyBytes
  location : String
deriving DecidableEq, Repr

/-- `fileKeyFromConfig` (part_000 lines 274-279): copies the base fields and
the location; the cache starts nil; never fails. -/
def fileKeyFromConfig (accountKey : ConfigAccountKey) : Except String FileAccountKey :=
  Except.ok
    { base := baseKeyFromConfig accountKey
      privateKey := none
      location := accountKey.location }

/-- `FileAccountKey.PrivateKey` (part_000 lines 316-329): if the cache is
nil, read the file at `location` (wrapping a read failure with the
location), strip an optional `0x` marker, decode with the raw stored
`sigAlgo` field (wrapping a decode failure with the location), and fill the
cache; then return the cached material.  The updated receiver is returned
alongside the material. -/
def FileAccountKey.PrivateKey (f : FileAccountKey) (ext : Externals) :
    Except String (PrivKeyBytes × FileAccountKey) :=
  match f.privateKey with
  | some k => Except.ok (k, f)
  | none =>
    match ext.readFile f.location with
    | Except.error e =>
      Except.error
        ("could not load the key for the account from provided location "
          ++ f.location ++ ": " ++ e)
    | Except.ok content =>
      match ext.decodePrivateKeyHex f.base.sigAlgo (trimLeading0x content) with
      | Except.error e =>
        Except.error
          ("could not decode the key from provided location "
            ++ f.location ++ ": " ++ e)
      | Except.ok pkey =>
        Except.ok (pkey, { f with privateKey := some pkey })

/-- `FileAccountKey.ToConfig` (part_000 lines 331-338): the Go composite
literal mentions only `Type`, `SigAlgo`, `HashAlgo` and `Location`; every
other field — including `Index` — takes its Go zero value. -/
def FileAccountKey.ToConfig (f : FileAccountKey) : ConfigAccountKey :=
  { type := KeyTypeFile
    index := 0
    sigAlgo := f.base.sigAlgo
    hashAlgo := f.base.hashAlgo
    privateKey := none
    resourceID := ""
    location := f.location
    mnemonic := ""
    derivationPath := "" }

/-- `FileAccountKey` declares no `Validate` of its own: the method is
inherited from the embedded `baseAccountKey` (part_000 lines 112-114 and
301-305), so it takes no filesystem argument at all. -/
def FileAccountKey.Validate (f : FileAccountKey) : Except String Unit :=
  f.base.Validate

/-- `Bip44AccountKey` (part_000 lines 341-346): base fields, a lazily-filled
private key cache, the mnemonic phrase and the derivation path string. -/
structure Bip44AccountKey where
  base : BaseAccountKey
  privateKey : Option PrivKeyBytes
  mnemonic : String
  derivationPath : String
deriving DecidableEq, Repr

/-- `bip44KeyFromConfig` (part_000 lines 348-359): copies index, algorithms,
mnemonic and path from the record verbatim, forces the tag to the bip44
constant, and never fails — no field is validated at construction time. -/
def bip44KeyFromConfig (key : ConfigAccountKey) : Except String Bip44AccountKey :=
  Except.ok
    { base :=
        { keyType := KeyTypeBip44
          index := key.index
          sigAlgo := key.sigAlgo
          hashAlgo := key.hashAlgo }
      privateKey := none
      derivationPath := key.derivationPath
      mnemonic := key.mnemonic }

/-- The curve chosen at part_000 lines 404-407: start from
`slip10.CurveBitcoin` and switch to `slip10.CurveP256` exactly when the raw
stored `sigAlgo` field equals `crypto.ECDSA_P256` (note: the raw field, not
the defaulted `SigAlgo()`). -/
def Bip44AccountKey.selectedCurve (a : Bip44AccountKey) : Curve :=
  if a.base.sigAlgo = SignatureAlgorithm.ECDSA_P256 then
    Curve.CurveP256
  else
    Curve.CurveBitcoin

/-- The child-key loop of `Bip44AccountKey.Validate` (part_000 lines
413-419): walk the parsed derivation path in order, deriving one child per
segment, aborting on the first failure. -/
def walkDerivationPath (ext : Externals) (k : Slip10Key) :
    List Nat → Except String Slip10Key
  | [] => Except.ok k
  | n :: ns =>
    match ext.newChildKey k n with
    | Except.error e => Except.error e
    | Except.ok k2 => walkDerivationPath ext k2 ns

/-- `Bip44AccountKey.Validate` (part_000 lines 392-425): check the mnemonic,
parse the derivation path, derive the seed (empty passphrase), build the
master key on `selectedCurve`, walk the path, and decode the final child
key's bytes with the defaulted `SigAlgo()`, caching the result in the
receiver's `privateKey` field.  The updated receiver is the success
value. -/
def Bip44AccountKey.Validate (a : Bip44AccountKey) (ext : Externals) :
    Except String Bip44AccountKey :=
  if ext.isMnemonicValid a.mnemonic = false then
    Except.error "invalid mnemonic defined for account in flow.json"
  else
    match ext.parseDerivationPath a.derivationPath with
    | Except.error _ =>
      Except.error "invalid derivation path defined for account in flow.json"
    | Except.ok derivationPath =>
      match ext.newMasterKeyWithCurve (ext.newSeed a.mnemonic "") a.selectedCurve with
      | Except.error e => Except.error e
      | Except.ok accountKey =>
        match walkDerivationPath ext accountKey derivationPath with
        | Except.error e => Except.error e
        | Except.ok finalKey =>
          match ext.decodePrivateKey a.base.SigAlgo finalKey.key with
          | Except.error e => Except.error e
          | Except.ok pk => Except.ok { a with privateKey := some pk }

/-- `Bip44AccountKey.PrivateKey` (part_000 lines 370-378): if the cache is
nil, run `Validate` (which fills it); then return the cache (the method
returns `&a.privateKey`, a pointer to the possibly-updated field).  The
updated receiver is returned alongside the material. -/
def Bip44AccountKey.PrivateKey (a : Bip44AccountKey) (ext : Externals) :
    Except String (Option PrivKeyBytes × Bip44AccountKey) :=
  match a.privateKey with
  | some _ => Except.ok (a.privateKey, a)
  | none =>
    match a.Validate ext with
    | Except.error e => Except.error e
    | Except.ok a2 => Except.ok (a2.privateKey, a2)

/-- `Bip44AccountKey.ToConfig` (part_000 lines 380-390): emits tag, index,
algorithms, the `PrivateKey` cache field, the mnemonic and the derivation
path; the remaining fields take Go zero values. -/
def Bip44AccountKey.ToConfig (a : Bip44AccountKey) : ConfigAccountKey :=
  { type := a.base.keyType
    index := a.base.index
    sigAlgo := a.base.sigAlgo
    hashAlgo := a.base.hashAlgo
    privateKey := a.privateKey
    resourceID := ""
    location := ""
    mnemonic := a.mnemonic
    derivationPath := a.derivationPath }

/-- `KmsAccountKey` (part_000 lines 117-120). -/
structure KmsAccountKey where
  base : BaseAccountKey
  kmsKey : CloudKmsKey
deriving DecidableEq, Repr

/-- `kmsKeyFromConfig` (part_000 lines 196-211): parse the resource
identifier (the one factory branch that can fail), force the tag to the KMS
constant, copy index and algorithms. -/
def kmsKeyFromConfig (key : ConfigAccountKey) (ext : Externals) :
    Except String KmsAccountKey :=
  match ext.keyFromResourceID key.resourceID with
  | Except.error e => Except.error e
  | Except.ok accountKMSKey =>
    Except.ok
      { base :=
          { keyType := KeyTypeGoogleKMS
            index := key.index
            sigAlgo := key.sigAlgo
            hashAlgo := key.hashAlgo }
        kmsKey := accountKMSKey }

/-- `KmsAccountKey.ToConfig` (part_000 lines 123-131): emits tag, index,
algorithms and the resource identifier; no private key field. -/
def KmsAccountKey.ToConfig (a : KmsAccountKey) : ConfigAccountKey :=
  { type := a.base.keyType
    index := a.base.index
    sigAlgo := a.base.sigAlgo
    hashAlgo := a.base.hashAlgo
    privateKey := none
    resourceID := a.kmsKey.resourceID
    location := ""
    mnemonic := ""
    derivationPath := "" }

/-- `KmsAccountKey.PrivateKey` (part_000 lines 154-156): always fails. -/
def KmsAccountKey.PrivateKey (_ : KmsAccountKey) :
    Except String (Option PrivKeyBytes) :=
  Except.error "private key not accessible"

/-- The `AccountKey` interface (part_000 lines 42-51) as the closed sum of
its four implementations. -/
inductive AccountKey where
  | hex (k : HexAccountKey)
  | file (k : FileAccountKey)
  | bip44 (k : Bip44AccountKey)
  | kms (k : KmsAccountKey)
deriving DecidableEq, Repr

/-- `accountKeyFromConfig` (part_000 lines 59-72): a closed switch on the
variant tag, delegating to the per-variant constructor; any other tag fails
with the `invalid key type` error carrying the offending tag text. -/
def accountKeyFromConfig (ext : Externals) (accountKeyConf : ConfigAccountKey) :
    Except String AccountKey :=
  if accountKeyConf.type = KeyTypeHex then
    match hexKeyFromConfig accountKeyConf with
    | Except.error e => Except.error e
    | Except.ok k => Except.ok (AccountKey.hex k)
  else if accountKeyConf.type = KeyTypeBip44 then
    match bip44KeyFromConfig accountKeyConf with
    | Except.error e => Except.error e
    | Except.ok k => Except.ok (AccountKey.bip44 k)
  else if accountKeyConf.type = KeyTypeGoogleKMS then
    match kmsKeyFromConfig accountKeyConf ext with
    | Except.error e => Except.error e
    | Except.ok k => Except.ok (AccountKey.kms k)
  else if accountKeyConf.type = KeyTypeFile then
    match fileKeyFromConfig accountKeyConf with
    | Except.error e => Except.error e
    | Except.ok k => Except.ok (AccountKey.file k)
  else
    Except.error ("invalid key type: \"" ++ accountKeyConf.type ++ "\"")

/-- `config.Account` (external record consumed by `account.go`): name,
address, and an ordered list of key records. -/
structure ConfigAccount where
  name : String
  address : Nat
  keys : List ConfigAccountKey
deriving DecidableEq, Repr

/-- `project.Account` (account.go lines 31-35): name, address, ordered
keys. -/
structure Account where
  name : String
  address : Nat
  keys : List AccountKey
deriving DecidableEq, Repr

/-- `Account.DefaultKey` (account.go lines 49-51): a bare `a.keys[0]` with
no emptiness check; on an empty key list the Go code panics with an
index-out-of-range, modelled here as `none`. -/
def Account.DefaultKey (a : Account) : Option AccountKey :=
  a.keys[0]?

/-- The key-conversion loop of `AccountFromConfig` (account.go lines
85-92): convert each key record in declared order through the key factory
(`NewAccountKey` in package `project` is the Key Factory of spec §4.3,
embedded by `accountKeyFromConfig` above), aborting on the first error. -/
def accountKeysFromConfigList (ext : Externals) :
    List ConfigAccountKey → Except String (List AccountKey)
  | [] => Except.ok []
  | k :: ks =>
    match accountKeyFromConfig ext k with
    | Except.error e => Except.error e
    | Except.ok accountKey =>
      match accountKeysFromConfigList ext ks with
      | Except.error e => Except.error e
      | Except.ok rest => Except.ok (accountKey :: rest)

/-- `AccountFromConfig` (account.go lines 82-99): convert all key records in
order, fail fast on the first key-conversion error, and assemble the
account from name, address and the converted keys. -/
def AccountFromConfig (ext : Externals) (accountConf : ConfigAccount) :
    Except String Account :=
  match accountKeysFromConfigList ext accountConf.keys with
  | Except.error e => Except.error e
  | Except.ok accountKeys =>
    Except.ok
      { name := accountConf.name
        address := accountConf.address
        keys := accountKeys }

/-- `accountsFromConfig` (account.go lines 57-70): convert each account
record in declared order, returning `(nil, err)` — here the bare error —
on the first conversion failure, so no partially-built list escapes. -/
def accountsFromConfig (ext : Externals) :
    List ConfigAccount → Except String (List Account)
  | [] => Except.ok []
  | c :: cs =>
    match AccountFromConfig ext c with
    | Except.error e => Except.error e
    | Except.ok account =>
      match accountsFromConfig ext cs with
      | Except.error e => Except.error e
      | Except.ok rest => Except.ok (account :: rest)

/-! ### Concrete fixtures

An externals instance on which every external call succeeds, one on which
every call fails, and a handful of concrete keys and records.  These model
possible behaviours of the external libraries (a valid mnemonic, a readable
key file, and so on); the control flow exercised on them is the repository's
own. -/

/-- Externals on which every call succeeds: the file read yields `"0a0b"`,
hex decoding returns the decoded-string length as a one-byte key, the
mnemonic checks valid, the path parses to `[0]`, and derivation produces
the byte `7`. -/
def extOk : Externals :=
  { readFile := fun _ => Except.ok "0a0b"
    decodePrivateKeyHex := fun _ s => Except.ok [s.length]
    isMnemonicValid := fun _ => true
    parseDerivationPath := fun _ => Except.ok [0]
    newSeed := fun _ _ => [1]
    newMasterKeyWithCurve := fun _ _ => Except.ok { key := [7] }
    newChildKey := fun k _ => Except.ok k
    decodePrivateKey := fun _ b => Except.ok b
    keyFromResourceID := fun s => Except.ok { resourceID := s } }

/-- Externals on which every call fails (or rejects). -/
def extFail : Externals :=
  { readFile := fun _ => Except.error "no such file"
    decodePrivateKeyHex := fun _ _ => Except.error "bad encoding"
    isMnemonicValid := fun _ => false
    parseDerivationPath := fun _ => Except.error "bad path"
    newSeed := fun _ _ => []
    newMasterKeyWithCurve := fun _ _ => Except.error "no master key"
    newChildKey := fun _ _ => Except.error "no child key"
    decodePrivateKey := fun _ _ => Except.error "bad key bytes"
    keyFromResourceID := fun _ => Except.error "bad resource id" }

/-- A derived key with an algorithm field explicitly set to P-256. -/
def c1Key : Bip44AccountKey :=
  { base :=
      { keyType := KeyTypeBip44
        index := 0
        sigAlgo := SignatureAlgorithm.ECDSA_P256
        hashAlgo := HashAlgorithm.SHA3_256 }
    privateKey := none
    mnemonic := "legal winner thank year wave sausage worth useful legal winner thank yellow"
    derivationPath := "m/44/539/0/0/0" }

/-- `c1Key` after its material has been derived and cached. -/
def c1KeyAfter : Bip44AccountKey :=
  { c1Key with privateKey := some [7] }

/-- A file key whose index is 5, with an empty cache. -/
def c2Key : FileAccountKey :=
  { base :=
      { keyType := KeyTypeFile
        index := 5
        sigAlgo := SignatureAlgorithm.ECDSA_P256
        hashAlgo := HashAlgorithm.SHA3_256 }
    privateKey := none
    location := "account.pkey" }

/-- `c2Key` after a successful load on `extOk` (the decoded material is the
length byte of the file content `"0a0b"`). -/
def c2KeyAfter : FileAccountKey :=
  { c2Key with privateKey := some [4] }

/-- A Derived-tagged configuration record with empty mnemonic and path. -/
def c3Conf : ConfigAccountKey :=
  { type := KeyTypeBip44
    index := 0
    sigAlgo := SignatureAlgorithm.UnknownSignatureAlgorithm
    hashAlgo := HashAlgorithm.UnknownHashAlgorithm
    privateKey := none
    resourceID := ""
    location := ""
    mnemonic := ""
    derivationPath := "" }

/-- The key the factory builds from `c3Conf`: empty fields copied verbatim. -/
def c3Key : Bip44AccountKey :=
  { base :=
      { keyType := KeyTypeBip44
        index := 0
        sigAlgo := SignatureAlgorithm.UnknownSignatureAlgorithm
        hashAlgo := HashAlgorithm.UnknownHashAlgorithm }
    privateKey := none
    mnemonic := ""
    derivationPath := "" }

/-- A configuration record whose tag is outside the closed enumeration. -/
def c4Conf : ConfigAccountKey :=
  { c3Conf with type := "unknown-type" }

/-- An account with an empty key list. -/
def emptyAccount : Account :=
  { name := "", address := 0, keys := [] }

/-- A concrete inline key wrapped in the interface sum. -/
def c5Key : AccountKey :=
  AccountKey.hex
    { base :=
        { keyType := KeyTypeHex
          index := 0
          sigAlgo := SignatureAlgorithm.ECDSA_P256
          hashAlgo := HashAlgorithm.SHA3_256 }
      privateKey := some [1, 2, 3] }

/-- An account holding exactly `c5Key`. -/
def c5Account : Account :=
  { name := "alice", address := 1, keys := [c5Key] }

/-- First account record: converts cleanly (no keys). -/
def c6A1 : ConfigAccount := { name := "one", address := 1, keys := [] }

/-- Second account record: converts cleanly (no keys). -/
def c6A2 : ConfigAccount := { name := "two", address := 2, keys := [] }

/-- Third account record: its only key has an unsupported type. -/
def c6A3 : ConfigAccount := { name := "three", address := 3, keys := [c4Conf] }

/-- An inline (hex) key record with concrete material and algorithms. -/
def c7Conf : ConfigAccountKey :=
  { type := KeyTypeHex
    index := 3
    sigAlgo := SignatureAlgorithm.ECDSA_secp256k1
    hashAlgo := HashAlgorithm.SHA2_256
    privateKey := some [9, 9, 9]
    resourceID := ""
    location := ""
    mnemonic := ""
    derivationPath := "" }

/-- A file key with an empty cache, for the memoization witness. -/
def c8File : FileAccountKey :=
  { base :=
      { keyType := KeyTypeFile
        index := 0
        sigAlgo := SignatureAlgorithm.ECDSA_P256
        hashAlgo := HashAlgorithm.SHA3_256 }
    privateKey := none
    location := "service.pkey" }

/-- `c8File` after a successful load on `extOk`. -/
def c8FileAfter : FileAccountKey :=
  { c8File with privateKey := some [4] }

/-- A derived key with an empty cache, for the memoization witness. -/
def c8Bip : Bip44AccountKey :=
  { base :=
      { keyType := KeyTypeBip44
        index := 1
        sigAlgo := SignatureAlgorithm.ECDSA_P256
        hashAlgo := HashAlgorithm.SHA3_256 }
    privateKey := none
    mnemonic := "abandon abandon about"
    derivationPath := "m/44/539/0/0/1" }

/-- `c8Bip` after a successful derivation on `extOk`. -/
def c8BipAfter : Bip44AccountKey :=
  { c8Bip with privateKey := some [7] }

/-- A derived key whose signature-algorithm field is left unset. -/
def c9Key : Bip44AccountKey :=
  { base :=
      { keyType := KeyTypeBip44
        index := 0
        sigAlgo := SignatureAlgorithm.UnknownSignatureAlgorithm
        hashAlgo := HashAlgorithm.UnknownHashAlgorithm }
    privateKey := none
    mnemonic := "legal winner thank year wave sausage worth useful legal winner thank yellow"
    derivationPath := "m/44/539/0/0/0" }

/-- Externals whose master-key constructor reports which curve it was
handed, so the curve chosen inside `Validate` is observable. -/
def c9Ext : Externals :=
  { extOk with
    newMasterKeyWithCurve := fun _ c =>
      Except.error
        (match c with
          | Curve.CurveBitcoin => "curve Bitcoin"
          | Curve.CurveP256 => "curve P256") }

/-- A file key pointing at a location that `extFail` cannot read. -/
def c10Key : FileAccountKey :=
  { base :=
      { keyType := KeyTypeFile
        index := 0
        sigAlgo := SignatureAlgorithm.ECDSA_P256
        hashAlgo := HashAlgorithm.SHA3_256 }
    privateKey := none
    location := "missing.pkey" }

/-! ### Helper lemmas -/

/-- A successful `FileAccountKey.PrivateKey` call fills the cache with the
returned material and touches nothing else in the key. -/
theorem filePrivateKeyOk (f f2 : FileAccountKey) (ext : Externals)
    (pk : PrivKeyBytes) (h : f.PrivateKey ext = Except.ok (pk, f2)) :
    f2.privateKey = some pk ∧ f2.base = f.base ∧ f2.location = f.location := by
  unfold FileAccountKey.PrivateKey at h
  cases hc : f.privateKey with
  | some k =>
    simp only [hc] at h
    simp only [Except.ok.injEq, Prod.mk.injEq] at h
    obtain ⟨rfl, rfl⟩ := h
    exact ⟨hc, rfl, rfl⟩
  | none =>
    simp only [hc] at h
    cases hr : ext.readFile f.location with
    | error e =>
      simp only [hr] at h
      exact Except.noConfusion h
    | ok content =>
      simp only [hr] at h
      cases hd : ext.decodePrivateKeyHex f.base.sigAlgo (trimLeading0x content) with
      | error e =>
        simp only [hd] at h
        exact Except.noConfusion h
      | ok pkey =>
        simp only [hd] at h
        simp only [Except.ok.injEq, Prod.mk.injEq] at h
        obtain ⟨rfl, rfl⟩ := h
        exact ⟨rfl, rfl, rfl⟩

/-- A successful `Bip44AccountKey.Validate` call always leaves a non-nil
private-key cache in the returned key. -/
theorem bip44ValidateSetsKey (a a2 : Bip44AccountKey) (ext : Externals)
    (h : a.Validate ext = Except.ok a2) : ∃ pk, a2.privateKey = some pk := by
  unfold Bip44AccountKey.Validate at h
  by_cases hm : ext.isMnemonicValid a.mnemonic = false
  · rw [if_pos hm] at h
    exact Except.noConfusion h
  · rw [if_neg hm] at h
    cases hp : ext.parseDerivationPath a.derivationPath with
    | error e =>
      simp only [hp] at h
      exact Except.noConfusion h
    | ok derivationPath =>
      simp only [hp] at h
      cases hmk : ext.newMasterKeyWithCurve (ext.newSeed a.mnemonic "") a.selectedCurve with
      | error e =>
        simp only [hmk] at h
        exact Except.noConfusion h
      | ok accountKey =>
        simp only [hmk] at h
        cases hw : walkDerivationPath ext accountKey derivationPath with
        | error e =>
          simp only [hw] at h
          exact Except.noConfusion h
        | ok finalKey =>
          simp only [hw] at h
          cases hd : ext.decodePrivateKey a.base.SigAlgo finalKey.key with
          | error e =>
            simp only [hd] at h
            exact Except.noConfusion h
          | ok pk =>
            simp only [hd, Except.ok.injEq] at h
            exact ⟨pk, by rw [← h]⟩

/-! ### Claims -/

/-- Claim C1, counterexample: the Derived variant's `ToConfig` does emit the
derived private key bytes once `PrivateKey` has succeeded — on `extOk` the
key `c1Key` materializes to the byte `[7]`, and the configuration record it
then serializes to carries `privateKey = some [7]`. -/
theorem C1_counterexample :
    Bip44AccountKey.PrivateKey c1Key extOk = Except.ok (some [7], c1KeyAfter) ∧
    c1KeyAfter.ToConfig.privateKey = some [7] :=
  ⟨rfl, rfl⟩

/-- Claim C1 (amended): the File and KMS records never carry private key
bytes, but the Derived record carries its `privateKey` cache field verbatim
(nil before materialization, the derived bytes after), alongside mnemonic,
derivation path, tag, algorithms and index. -/
theorem C1_theorem (f : FileAccountKey) (k : KmsAccountKey) (b : Bip44AccountKey) :
    f.ToConfig.privateKey = none ∧
    k.ToConfig.privateKey = none ∧
    b.ToConfig.privateKey = b.privateKey ∧
    b.ToConfig.mnemonic = b.mnemonic ∧
    b.ToConfig.derivationPath = b.derivationPath ∧
    b.ToConfig.type = b.base.keyType ∧
    b.ToConfig.index = b.base.index :=
  ⟨rfl, rfl, rfl, rfl, rfl, rfl, rfl⟩

/-- Claim C2, counterexample: `FileAccountKey.ToConfig` drops the index —
for the file key with index 5, the emitted record's index is 0. -/
theorem C2_counterexample :
    c2Key.base.Index = 5 ∧ c2Key.ToConfig.index = 0 ∧
    c2Key.ToConfig.index ≠ c2Key.base.Index := by
  refine ⟨rfl, rfl, by decide⟩

/-- Claim C2 (amended): for every File-backed key, `ToConfig` emits the
variant tag, both algorithms and the location, never the decoded material
(even after a successful `PrivateKey` call), and always emits index 0
regardless of the key's own index. -/
theorem C2_theorem (f f2 : FileAccountKey) (ext : Externals) (pk : PrivKeyBytes)
    (h : f.PrivateKey ext = Except.ok (pk, f2)) :
    f2.ToConfig.type = KeyTypeFile ∧
    f2.ToConfig.sigAlgo = f.base.sigAlgo ∧
    f2.ToConfig.hashAlgo = f.base.hashAlgo ∧
    f2.ToConfig.location = f.location ∧
    f2.ToConfig.index = 0 ∧
    f2.ToConfig.privateKey = none := by
  obtain ⟨-, hbase, hloc⟩ := filePrivateKeyOk f f2 ext pk h
  unfold FileAccountKey.ToConfig
  rw [hbase, hloc]
  exact ⟨rfl, rfl, rfl, rfl, rfl, rfl⟩

/-- Witness for C2: the concrete file key `c2Key` loads on `extOk`. -/
theorem C2_theorem_witness :
    c2KeyAfter.ToConfig.type = KeyTypeFile ∧
    c2KeyAfter.ToConfig.sigAlgo = c2Key.base.sigAlgo ∧
    c2KeyAfter.ToConfig.hashAlgo = c2Key.base.hashAlgo ∧
    c2KeyAfter.ToConfig.location = c2Key.location ∧
    c2KeyAfter.ToConfig.index = 0 ∧
    c2KeyAfter.ToConfig.privateKey = none :=
  C2_theorem c2Key c2KeyAfter extOk [4] (by rfl)

/-- Claim C3, counterexample: the factory's Derived branch performs no
field validation — on a record with empty mnemonic and empty derivation
path it succeeds, returning a key that copies the empty fields verbatim. -/
theorem C3_counterexample :
    accountKeyFromConfig extOk c3Conf = Except.ok (AccountKey.bip44 c3Key) ∧
    c3Key.mnemonic = "" ∧ c3Key.derivationPath = "" :=
  ⟨rfl, rfl, rfl⟩

/-- Claim C3 (amended): `bip44KeyFromConfig` always succeeds, copying
mnemonic and derivation path verbatim (empty allowed); the mnemonic check
is deferred to `Validate`, which fails with the invalid-mnemonic error when
the external check rejects the stored phrase. -/
theorem C3_theorem (conf : ConfigAccountKey) (ext : Externals)
    (hm : ext.isMnemonicValid conf.mnemonic = false) :
    ∃ k, bip44KeyFromConfig conf = Except.ok k ∧
      k.mnemonic = conf.mnemonic ∧
      k.derivationPath = conf.derivationPath ∧
      k.Validate ext = Except.error "invalid mnemonic defined for account in flow.json" := by
  refine ⟨_, rfl, rfl, rfl, ?_⟩
  unfold Bip44AccountKey.Validate
  rw [if_pos hm]

/-- Witness for C3: on `extFail` (whose mnemonic check rejects everything)
the empty-field record builds a key whose `Validate` reports the invalid
mnemonic. -/
theorem C3_theorem_witness :
    ∃ k, bip44KeyFromConfig c3Conf = Except.ok k ∧
      k.mnemonic = c3Conf.mnemonic ∧
      k.derivationPath = c3Conf.derivationPath ∧
      k.Validate extFail = Except.error "invalid mnemonic defined for account in flow.json" :=
  C3_theorem c3Conf extFail rfl

/-- Claim C4: for every record whose tag is outside the closed enumeration,
the factory fails with the invalid-key-type error, whose text contains the
offending tag. -/
theorem C4_theorem (ext : Externals) (conf : ConfigAccountKey)
    (h1 : conf.type ≠ KeyTypeHex) (h2 : conf.type ≠ KeyTypeBip44)
    (h3 : conf.type ≠ KeyTypeGoogleKMS) (h4 : conf.type ≠ KeyTypeFile) :
    accountKeyFromConfig ext conf =
      Except.error ("invalid key type: \"" ++ conf.type ++ "\"") ∧
    ∃ p q, "invalid key type: \"" ++ conf.type ++ "\"" = p ++ conf.type ++ q := by
  refine ⟨?_, "invalid key type: \"", "\"", rfl⟩
  unfold accountKeyFromConfig
  rw [if_neg h1, if_neg h2, if_neg h3, if_neg h4]

/-- Witness for C4: the tag `"unknown-type"` fails, and the error text
contains the offending tag. -/
theorem C4_theorem_witness :
    accountKeyFromConfig extOk c4Conf =
      Except.error ("invalid key type: \"" ++ c4Conf.type ++ "\"") ∧
    ∃ p q, "invalid key type: \"" ++ c4Conf.type ++ "\"" = p ++ c4Conf.type ++ q :=
  C4_theorem extOk c4Conf (by decide) (by decide) (by decide) (by decide)

/-- Claim C5, counterexample: on an account with an empty key list,
`DefaultKey` performs the bare index-0 access — an out-of-bounds read
(Go panic, modelled `none`) — and has no `NoKeysConfigured` error value. -/
theorem C5_counterexample : emptyAccount.DefaultKey = none :=
  rfl

/-- Claim C5 (amended): `DefaultKey` returns the element at index 0 of the
key list whenever one exists; on an empty list the access is out of bounds
(a Go runtime panic) — there is no `NoKeysConfigured` failure path. -/
theorem C5_theorem (a : Account) (k : AccountKey) (ks : List AccountKey)
    (h : a.keys = k :: ks) : a.DefaultKey = some k := by
  unfold Account.DefaultKey
  rw [h]
  simp

/-- Witness for C5: the single-key account returns its only key. -/
theorem C5_theorem_witness : c5Account.DefaultKey = some c5Key :=
  C5_theorem c5Account c5Key [] rfl

/-- Claim C6: when the first two account records convert and the third
fails, `accountsFromConfig` returns exactly the third record's conversion
error (unmasked) and, being the error branch, no account list at all. -/
theorem C6_theorem (ext : Externals) (a1 a2 a3 : ConfigAccount)
    (rest : List ConfigAccount) (acc1 acc2 : Account) (e : String)
    (h1 : AccountFromConfig ext a1 = Except.ok acc1)
    (h2 : AccountFromConfig ext a2 = Except.ok acc2)
    (h3 : AccountFromConfig ext a3 = Except.error e) :
    accountsFromConfig ext (a1 :: a2 :: a3 :: rest) = Except.error e := by
  simp only [accountsFromConfig, h1, h2, h3]

/-- Witness for C6: three concrete records whose third carries an
unsupported key type yield exactly the invalid-key-type error. -/
theorem C6_theorem_witness :
    accountsFromConfig extOk [c6A1, c6A2, c6A3] =
      Except.error "invalid key type: \"unknown-type\"" :=
  C6_theorem extOk c6A1 c6A2 c6A3 []
    { name := "one", address := 1, keys := [] }
    { name := "two", address := 2, keys := [] }
    "invalid key type: \"unknown-type\"" rfl rfl rfl

/-- Claim C7: converting an Inline (hex) record through the factory and
serializing the result back yields the identical private key material,
signature algorithm, hash algorithm and index, under the same tag. -/
theorem C7_theorem (ext : Externals) (conf : ConfigAccountKey)
    (h : conf.type = KeyTypeHex) :
    ∃ k, accountKeyFromConfig ext conf = Except.ok (AccountKey.hex k) ∧
      k.ToConfig.privateKey = conf.privateKey ∧
      k.ToConfig.sigAlgo = conf.sigAlgo ∧
      k.ToConfig.hashAlgo = conf.hashAlgo ∧
      k.ToConfig.index = conf.index ∧
      k.ToConfig.type = KeyTypeHex := by
  refine ⟨{ base := baseKeyFromConfig conf, privateKey := conf.privateKey },
    ?_, rfl, rfl, rfl, rfl, h⟩
  unfold accountKeyFromConfig
  rw [if_pos h]
  rfl

/-- Witness for C7: the concrete hex record `c7Conf` round-trips. -/
theorem C7_theorem_witness :
    ∃ k, accountKeyFromConfig extOk c7Conf = Except.ok (AccountKey.hex k) ∧
      k.ToConfig.privateKey = c7Conf.privateKey ∧
      k.ToConfig.sigAlgo = c7Conf.sigAlgo ∧
      k.ToConfig.hashAlgo = c7Conf.hashAlgo ∧
      k.ToConfig.index = c7Conf.index ∧
      k.ToConfig.type = KeyTypeHex :=
  C7_theorem extOk c7Conf rfl

/-- Claim C8: once a File or Derived key has materialized successfully, a
second `PrivateKey` call returns the identical material and identical key
state under arbitrary (even everywhere-failing) externals — so the second
call performs no file read and no derivation work at all. -/
theorem C8_theorem (ext ext2 : Externals) (f f2 : FileAccountKey)
    (pk : PrivKeyBytes) (b b2 : Bip44AccountKey) (opk : Option PrivKeyBytes)
    (hf : f.PrivateKey ext = Except.ok (pk, f2))
    (hb : b.PrivateKey ext = Except.ok (opk, b2)) :
    f2.PrivateKey ext2 = Except.ok (pk, f2) ∧
    b2.PrivateKey ext2 = Except.ok (opk, b2) := by
  constructor
  · obtain ⟨hf2, -, -⟩ := filePrivateKeyOk f f2 ext pk hf
    unfold FileAccountKey.PrivateKey
    simp only [hf2]
  · unfold Bip44AccountKey.PrivateKey at hb ⊢
    cases hcb : b.privateKey with
    | some k =>
      simp only [hcb] at hb
      simp only [Except.ok.injEq, Prod.mk.injEq] at hb
      obtain ⟨rfl, rfl⟩ := hb
      simp only [hcb]
    | none =>
      simp only [hcb] at hb
      cases hv : b.Validate ext with
      | error e =>
        simp only [hv] at hb
        exact Except.noConfusion hb
      | ok a2 =>
        simp only [hv] at hb
        simp only [Except.ok.injEq, Prod.mk.injEq] at hb
        obtain ⟨h1, rfl⟩ := hb
        subst h1
        obtain ⟨pk2, hpk2⟩ := bip44ValidateSetsKey b a2 ext hv
        simp only [hpk2]

/-- Witness for C8: the concrete keys `c8File` and `c8Bip` materialize on
`extOk`; the second call succeeds identically on `extFail`, where every
file read and derivation step fails. -/
theorem C8_theorem_witness :
    c8FileAfter.PrivateKey extFail = Except.ok ([4], c8FileAfter) ∧
    c8BipAfter.PrivateKey extFail = Except.ok (some [7], c8BipAfter) :=
  C8_theorem extOk extFail c8File c8FileAfter [4] c8Bip c8BipAfter (some [7]) (by rfl) (by rfl)

/-- Claim C9, counterexample: for a derived key whose signature-algorithm
field is unset, the resolved algorithm is the P-256 default, yet `Validate`
hands the Bitcoin curve to the master-key constructor (observed through
`c9Ext`, whose constructor reports the curve it received). -/
theorem C9_counterexample :
    c9Key.base.SigAlgo = SignatureAlgorithm.ECDSA_P256 ∧
    c9Key.selectedCurve = Curve.CurveBitcoin ∧
    c9Key.Validate c9Ext = Except.error "curve Bitcoin" :=
  ⟨rfl, rfl, rfl⟩

/-- Claim C9 (amended): the P-256 derivation curve is selected exactly when
the raw stored signature-algorithm field equals ECDSA P-256; when the field
is unset, the fallback Bitcoin curve is selected even though the resolved
algorithm (used for decoding the derived bytes) defaults to P-256. -/
theorem C9_theorem (b : Bip44AccountKey) :
    (b.selectedCurve = Curve.CurveP256 ↔
      b.base.sigAlgo = SignatureAlgorithm.ECDSA_P256) ∧
    (b.base.sigAlgo = SignatureAlgorithm.UnknownSignatureAlgorithm →
      b.base.SigAlgo = SignatureAlgorithm.ECDSA_P256 ∧
      b.selectedCurve = Curve.CurveBitcoin) := by
  constructor
  · unfold Bip44AccountKey.selectedCurve
    by_cases hs : b.base.sigAlgo = SignatureAlgorithm.ECDSA_P256
    · simp [hs]
    · simp [hs]
  · intro hu
    constructor
    · unfold BaseAccountKey.SigAlgo
      rw [if_pos hu]
    · unfold Bip44AccountKey.selectedCurve
      rw [hu]
      rfl

/-- Witness for C9: the unset-algorithm key `c9Key` resolves to P-256 but
selects the Bitcoin curve. -/
theorem C9_theorem_witness :
    c9Key.base.SigAlgo = SignatureAlgorithm.ECDSA_P256 ∧
    c9Key.selectedCurve = Curve.CurveBitcoin :=
  (C9_theorem c9Key).2 rfl

/-- Claim C10: a File key's `Validate` is the base key's no-op — it takes no
filesystem access at all and returns success — even for a key whose
location cannot be read, where `PrivateKey` fails with the unreadable-file
error carrying that location. -/
theorem C10_theorem (f : FileAccountKey) (ext : Externals) (e : String)
    (hcache : f.privateKey = none)
    (hread : ext.readFile f.location = Except.error e) :
    f.Validate = Except.ok () ∧
    f.PrivateKey ext =
      Except.error ("could not load the key for the account from provided location "
        ++ f.location ++ ": " ++ e) := by
  constructor
  · rfl
  · unfold FileAccountKey.PrivateKey
    simp only [hcache, hread]

/-- Witness for C10: the key at the unreadable location `missing.pkey`
validates successfully while `PrivateKey` fails. -/
theorem C10_theorem_witness :
    c10Key.Validate = Except.ok () ∧
    c10Key.PrivateKey extFail =
      Except.error ("could not load the key for the account from provided location "
        ++ c10Key.location ++ ": " ++ "no such file") :=
  C10_theorem c10Key extFail "no such file" rfl rfl

end Flowkit
